import Mathlib

/-!
Shallow embedding of the `mcp-server-doppler` server (TypeScript) in Lean 4.

The embedding covers the three pieces the repository's core comprises:

* the remote operation client `src/doppler-client.ts` (`DopplerClient`):
  every method is modelled as a pure function over an explicit network
  oracle `Network : RemoteCall → RemoteOutcome` standing for axios; each
  method returns the operation's `Except`-style result together with the
  list of HTTP requests it issued (`OpResult`);
* the static tool catalog `TOOLS` of `src/index.ts` / `src/tools.ts`;
* the tool-call dispatcher of `src/index.ts` (`setupHandlers`'s
  `CallToolRequestSchema` handler): zod argument validation, the switch on
  the tool name, and the outer try/catch that turns every thrown error
  into a normal text response.

JavaScript values flowing through the server are modelled by the `Json`
type; `undefined` is modelled by `Option Json` (a missing object field).
Thrown JavaScript `Error`s are modelled by `Except String`, the string
being `Error.message`.  `JSON.stringify(x, null, 2)` is modelled by
`Json.stringify` without the 2-space indentation (no claim observes
whitespace).  Zod aggregates all issues of a parse before throwing while
the model reports the first failing field; both sides fail on exactly the
same argument objects, which is what the claims observe.
-/

/-- A JSON / JavaScript value as it appears in requests and responses. -/
inductive Json where
  | null
  | bool (b : Bool)
  | num (n : Int)
  | str (s : String)
  | arr (elems : List Json)
  | obj (fields : List (String × Json))

/-- JavaScript falsiness of a value (`x || fallback` takes `fallback`
exactly when `x` is falsy; empty arrays and objects are truthy). -/
def Json.isFalsy : Json → Bool
  | .null => true
  | .bool b => !b
  | .num n => n == 0
  | .str s => s == ""
  | .arr _ => false
  | .obj _ => false

/-- Property access `j[k]` / `j.k`: `undefined` (`none`) unless `j` is an
object with field `k`. -/
def Json.getField : Json → String → Option Json
  | .obj fields, k => fields.lookup k
  | _, _ => none

/-- The JavaScript expression `x || fallback` where a missing field is
`undefined` (hence falsy). -/
def jsOr (x : Option Json) (fallback : Json) : Json :=
  match x with
  | some v => if v.isFalsy then fallback else v
  | none => fallback

/-- `Object.entries(j)` for the object values this server handles
(non-objects give no entries). -/
def Json.entries : Json → List (String × Json)
  | .obj fields => fields
  | _ => []

/-- `JSON.stringify` (modelled without the pretty-printing whitespace). -/
def Json.stringify : Json → String
  | .null => "null"
  | .bool true => "true"
  | .bool false => "false"
  | .num n => toString n
  | .str s => "\x22" ++ s ++ "\x22"
  | .arr elems =>
      "[" ++ String.intercalate "," (elems.attach.map (fun x => Json.stringify x.1)) ++ "]"
  | .obj fields =>
      "\x7b" ++ String.intercalate ","
        (fields.attach.map (fun x => "\x22" ++ x.1.1 ++ "\x22:" ++ Json.stringify x.1.2))
        ++ "\x7d"
decreasing_by
  · have h := List.sizeOf_lt_of_mem x.2
    simp only [Json.arr.sizeOf_spec]
    omega
  · have h := List.sizeOf_lt_of_mem x.2
    have : sizeOf x.1.2 < sizeOf x.1 := by
      obtain ⟨a, b⟩ := x.1
      simp only [Prod.mk.sizeOf_spec]
      omega
    simp only [Json.obj.sizeOf_spec]
    omega

/-- Template-literal stringification `String(x)` as used in the dispatcher's
response texts. -/
def Json.jsToString : Json → String
  | .null => "null"
  | .bool true => "true"
  | .bool false => "false"
  | .num n => toString n
  | .str s => s
  | .arr elems =>
      String.intercalate "," (elems.attach.map (fun x => Json.jsToString x.1))
  | .obj _ => "[object Object]"
decreasing_by
  have h := List.sizeOf_lt_of_mem x.2
  simp only [Json.arr.sizeOf_spec]
  omega

/-- Interpolation of a possibly-`undefined` value into a template literal. -/
def jsDisplay : Option Json → String
  | none => "undefined"
  | some j => j.jsToString

/-- One HTTP request as the axios instance issues it: method, path, query
parameters, JSON body (`Json.null` when the request has no body). -/
structure RemoteCall where
  method : String
  path : String
  params : List (String × Json)
  body : Json

/-- What the remote API does with one request: a 2xx JSON response, a
non-2xx response, or a transport failure (DNS, timeout, reset).  Both
failure forms make `await` throw. -/
inductive RemoteOutcome where
  | ok (data : Json)
  | httpError (status : Nat) (body : String)
  | transportError (message : String)

/-- Whether the outcome is a success (the `await` does not throw). -/
def RemoteOutcome.isOk : RemoteOutcome → Bool
  | .ok _ => true
  | _ => false

/-- The network oracle standing for the axios instance: the deterministic
behaviour of the remote API during one operation. -/
abbrev Network := RemoteCall → RemoteOutcome

/-- Result of one client method: the value returned or the message of the
`Error` thrown, together with every HTTP request the method issued. -/
structure OpResult (α : Type) where
  result : Except String α
  calls : List RemoteCall

namespace DopplerClient

/-- `GET /projects?per_page=100` (`listProjects`). -/
def listProjectsCall : RemoteCall :=
  ⟨"GET", "/projects", [("per_page", Json.num 100)], Json.null⟩

/-- `DopplerClient.listProjects`: returns `response.data.projects || []`,
rethrown as `Error('Failed to list projects')` on any failure. -/
def listProjects (net : Network) : OpResult Json :=
  match net listProjectsCall with
  | .ok data => ⟨.ok (jsOr (data.getField "projects") (Json.arr [])), [listProjectsCall]⟩
  | _ => ⟨.error "Failed to list projects", [listProjectsCall]⟩

/-- `GET /configs?project=...&per_page=100` (`listConfigs`). -/
def listConfigsCall (project : String) : RemoteCall :=
  ⟨"GET", "/configs", [("project", Json.str project), ("per_page", Json.num 100)], Json.null⟩

/-- `DopplerClient.listConfigs`. -/
def listConfigs (net : Network) (project : String) : OpResult Json :=
  match net (listConfigsCall project) with
  | .ok data => ⟨.ok (jsOr (data.getField "configs") (Json.arr [])), [listConfigsCall project]⟩
  | _ => ⟨.error ("Failed to list configs for project " ++ project), [listConfigsCall project]⟩

/-- `GET /configs/config/secrets/names?project=...&config=...` (`listSecrets`). -/
def listSecretsCall (project config : String) : RemoteCall :=
  ⟨"GET", "/configs/config/secrets/names",
    [("project", Json.str project), ("config", Json.str config)], Json.null⟩

/-- `DopplerClient.listSecrets`: the secret names only. -/
def listSecrets (net : Network) (project config : String) : OpResult Json :=
  match net (listSecretsCall project config) with
  | .ok data =>
      ⟨.ok (jsOr (data.getField "names") (Json.arr [])), [listSecretsCall project config]⟩
  | _ =>
      ⟨.error ("Failed to list secrets for " ++ project ++ "/" ++ config),
        [listSecretsCall project config]⟩

/-- The object `getSecret` returns: `{ name, value }`, `value` possibly
`undefined`. -/
structure DopplerSecret where
  name : String
  value : Option Json

/-- `GET /configs/config/secrets?project=...&config=...&name=...` (`getSecret`). -/
def getSecretCall (project config name : String) : RemoteCall :=
  ⟨"GET", "/configs/config/secrets",
    [("project", Json.str project), ("config", Json.str config), ("name", Json.str name)],
    Json.null⟩

/-- `DopplerClient.getSecret`: on success returns
`{ name, value: (response.data.secrets || {})[name] }` — the value is
`undefined` when the name is absent, no error is raised for that case. -/
def getSecret (net : Network) (project config name : String) : OpResult DopplerSecret :=
  match net (getSecretCall project config name) with
  | .ok data =>
      let secrets := jsOr (data.getField "secrets") (Json.obj [])
      ⟨.ok ⟨name, secrets.getField name⟩, [getSecretCall project config name]⟩
  | _ =>
      ⟨.error ("Failed to get secret " ++ name), [getSecretCall project config name]⟩

/-- `POST /configs/config/secrets` with body
`{ project, config, secrets: {...} }` — used by `setSecret` and by the
write step of `promoteSecrets`. -/
def secretsPostCall (project config : String) (secrets : List (String × Json)) : RemoteCall :=
  ⟨"POST", "/configs/config/secrets", [],
    Json.obj [("project", Json.str project), ("config", Json.str config),
      ("secrets", Json.obj secrets)]⟩

/-- `setSecret`'s result: whether the secret was created (vs updated). -/
structure SetSecretResult where
  created : Bool

/-- `DopplerClient.setSecret`: one-key upsert; `created` is
`response.data.secrets?.[name]?.created || false`. -/
def setSecret (net : Network) (project config name value : String) : OpResult SetSecretResult :=
  let call := secretsPostCall project config [(name, Json.str value)]
  match net call with
  | .ok data =>
      let created :=
        match data.getField "secrets" with
        | some s =>
            match s.getField name with
            | some entry =>
                match entry.getField "created" with
                | some c => !c.isFalsy
                | none => false
            | none => false
        | none => false
      ⟨.ok ⟨created⟩, [call]⟩
  | _ => ⟨.error ("Failed to set secret " ++ name), [call]⟩

/-- `DELETE /configs/config/secrets` with body `{ project, config, secrets }`. -/
def deleteSecretsCall (project config : String) (secrets : List String) : RemoteCall :=
  ⟨"DELETE", "/configs/config/secrets", [],
    Json.obj [("project", Json.str project), ("config", Json.str config),
      ("secrets", Json.arr (secrets.map Json.str))]⟩

/-- `DopplerClient.deleteSecrets`: bulk delete, no per-name reporting. -/
def deleteSecrets (net : Network) (project config : String) (secrets : List String) :
    OpResult Unit :=
  let call := deleteSecretsCall project config secrets
  match net call with
  | .ok _ => ⟨.ok (), [call]⟩
  | _ => ⟨.error "Failed to delete secrets", [call]⟩

/-- `GET /configs/config/secrets/download?project=...&config=...&format=json`:
the read step of `promoteSecrets`. -/
def promoteDownloadCall (project sourceConfig : String) : RemoteCall :=
  ⟨"GET", "/configs/config/secrets/download",
    [("project", Json.str project), ("config", Json.str sourceConfig),
      ("format", Json.str "json")], Json.null⟩

/-- The filter of `promoteSecrets`:
`!excludeKeys || !excludeKeys.includes(key)` — a key is kept when no
exclusion list was given or the list does not contain it (exact string
equality, `Array.prototype.includes`). -/
def promoteKeep (excludeKeys : Option (List String)) (key : String) : Bool :=
  match excludeKeys with
  | none => true
  | some ks => !(ks.contains key)

/-- `promoteSecrets`'s result: how many secrets were written. -/
structure PromoteResult where
  count : Nat

/-- `DopplerClient.promoteSecrets`: downloads the whole source secret set,
filters out the excluded keys, and — only when at least one secret
remains — posts the filtered set to the target config.  Any failing
request makes the whole operation throw `Error('Failed to promote
secrets')`. -/
def promoteSecrets (net : Network) (project sourceConfig targetConfig : String)
    (excludeKeys : Option (List String)) : OpResult PromoteResult :=
  let dl := promoteDownloadCall project sourceConfig
  match net dl with
  | .ok data =>
      let sourceSecrets := if data.isFalsy then Json.obj [] else data
      let secretsToPromote := sourceSecrets.entries.filter (fun kv => promoteKeep excludeKeys kv.1)
      let count := secretsToPromote.length
      if count > 0 then
        let wr := secretsPostCall project targetConfig secretsToPromote
        match net wr with
        | .ok _ => ⟨.ok ⟨count⟩, [dl, wr]⟩
        | _ => ⟨.error "Failed to promote secrets", [dl, wr]⟩
      else ⟨.ok ⟨count⟩, [dl]⟩
  | _ => ⟨.error "Failed to promote secrets", [dl]⟩

/-- `POST /configs/config/tokens` with body `{ project, config, name, access }`. -/
def createServiceTokenCall (project config name access : String) : RemoteCall :=
  ⟨"POST", "/configs/config/tokens", [],
    Json.obj [("project", Json.str project), ("config", Json.str config),
      ("name", Json.str name), ("access", Json.str access)]⟩

/-- `DopplerClient.createServiceToken`: the `access` parameter defaults to
`'read'` exactly as the TypeScript default parameter does; returns
`response.data.token` (which may be `undefined`). -/
def createServiceToken (net : Network) (project config name : String)
    (access : String := "read") : OpResult (Option Json) :=
  let call := createServiceTokenCall project config name access
  match net call with
  | .ok data => ⟨.ok (data.getField "token"), [call]⟩
  | _ =>
      ⟨.error ("Failed to create service token for " ++ project ++ "/" ++ config), [call]⟩

/-- `GET /logs` with `page`, `per_page` and — only for a truthy project
filter — `project` (`if (project) params.project = project`). -/
def activityLogsCall (project : Option String) (page perPage : Int) : RemoteCall :=
  let base := [("page", Json.num page), ("per_page", Json.num perPage)]
  let ps :=
    match project with
    | some p => if p == "" then base else base ++ [("project", Json.str p)]
    | none => base
  ⟨"GET", "/logs", ps, Json.null⟩

/-- `DopplerClient.getActivityLogs`. -/
def getActivityLogs (net : Network) (project : Option String)
    (page : Int := 1) (perPage : Int := 20) : OpResult Json :=
  let call := activityLogsCall project page perPage
  match net call with
  | .ok data => ⟨.ok (jsOr (data.getField "logs") (Json.arr [])), [call]⟩
  | _ => ⟨.error "Failed to get activity logs", [call]⟩

/-- `GET /me`, the probe of `validateConnection`. -/
def validateConnectionCall : RemoteCall := ⟨"GET", "/me", [], Json.null⟩

/-- `DopplerClient.validateConnection`: total, returns a `Bool` rather than
possibly throwing — the `try/catch` converts every failure to `false`. -/
def validateConnection (net : Network) : Bool :=
  match net validateConnectionCall with
  | .ok _ => true
  | _ => false

end DopplerClient

/-! ## Tool catalog (`TOOLS` of `src/index.ts`, identical in `src/tools.ts`) -/

/-- One property of a tool's JSON-Schema `inputSchema.properties`. -/
structure PropertySpec where
  type : String
  description : String
  enum : Option (List String) := none
  items : Option String := none
deriving DecidableEq

/-- A tool's `inputSchema`: an object schema with properties and a list of
required property names (absent `required` modelled as `[]`). -/
structure InputSchema where
  properties : List (String × PropertySpec)
  required : List String := []
deriving DecidableEq

/-- One entry of the static tool catalog. -/
structure Tool where
  name : String
  description : String
  inputSchema : InputSchema
deriving DecidableEq

/-- The static tool catalog `TOOLS`. -/
def TOOLS : List Tool := [
  { name := "doppler_list_projects",
    description := "List all Doppler projects",
    inputSchema := { properties := [] } },
  { name := "doppler_list_secrets",
    description := "List all secret names in a project/config",
    inputSchema := {
      properties := [
        ("project", { type := "string", description := "The Doppler project name" }),
        ("config", { type := "string", description := "The config/environment name" })],
      required := ["project", "config"] } },
  { name := "doppler_get_secret",
    description := "Get a specific secret value",
    inputSchema := {
      properties := [
        ("project", { type := "string", description := "The Doppler project name" }),
        ("config", { type := "string", description := "The config/environment name" }),
        ("name", { type := "string", description := "The secret name to retrieve" })],
      required := ["project", "config", "name"] } },
  { name := "doppler_set_secret",
    description := "Set or update a secret value",
    inputSchema := {
      properties := [
        ("project", { type := "string", description := "The Doppler project name" }),
        ("config", { type := "string", description := "The config/environment name" }),
        ("name", { type := "string", description := "The secret name" }),
        ("value", { type := "string", description := "The secret value" })],
      required := ["project", "config", "name", "value"] } },
  { name := "doppler_delete_secrets",
    description := "Delete one or more secrets",
    inputSchema := {
      properties := [
        ("project", { type := "string", description := "The Doppler project name" }),
        ("config", { type := "string", description := "The config/environment name" }),
        ("secrets",
          { type := "array", description := "Array of secret names to delete", items := some "string" })],
      required := ["project", "config", "secrets"] } },
  { name := "doppler_promote_secrets",
    description := "Promote secrets from one environment to another",
    inputSchema := {
      properties := [
        ("project", { type := "string", description := "The Doppler project name" }),
        ("sourceConfig", { type := "string", description := "Source config/environment" }),
        ("targetConfig", { type := "string", description := "Target config/environment" }),
        ("excludeKeys",
          { type := "array", description := "Keys to exclude from promotion", items := some "string" })],
      required := ["project", "sourceConfig", "targetConfig"] } },
  { name := "doppler_create_service_token",
    description := "Create a service token for a project/config",
    inputSchema := {
      properties := [
        ("project", { type := "string", description := "The Doppler project name" }),
        ("config", { type := "string", description := "The config/environment name" }),
        ("name", { type := "string", description := "Token name" }),
        ("access",
          { type := "string", description := "Token access level", enum := some ["read", "read/write"] })],
      required := ["project", "config", "name"] } },
  { name := "doppler_get_activity_logs",
    description := "Get activity logs for auditing",
    inputSchema := {
      properties := [
        ("project", { type := "string", description := "Filter by project" }),
        ("page", { type := "number", description := "Page number" }),
        ("perPage", { type := "number", description := "Items per page" })] } }]

/-! ## Zod argument schemas of `src/index.ts`

An incoming `arguments` object is its list of fields.  Each `Schema.parse`
either returns the typed arguments or throws a `ZodError`; the model's
error strings summarise the failing field (zod's exact issue rendering is
not observed by any claim — only which argument objects fail). -/

/-- An incoming tool-call argument object (its fields). -/
abbrev Args := List (String × Json)

/-- `z.string()` on a required field. -/
def parseRequiredString (args : Args) (k : String) : Except String String :=
  match args.lookup k with
  | some (.str s) => .ok s
  | some _ => .error (k ++ ": Expected string")
  | none => .error (k ++ ": Required")

/-- `z.string().optional()`. -/
def parseOptionalString (args : Args) (k : String) : Except String (Option String) :=
  match args.lookup k with
  | none => .ok none
  | some (.str s) => .ok (some s)
  | some _ => .error (k ++ ": Expected string")

/-- `z.number().optional().default(d)`. -/
def parseNumberWithDefault (args : Args) (k : String) (d : Int) : Except String Int :=
  match args.lookup k with
  | none => .ok d
  | some (.num n) => .ok n
  | some _ => .error (k ++ ": Expected number")

/-- `z.array(z.string())` element check. -/
def parseStringList : List Json → Except String (List String)
  | [] => .ok []
  | .str s :: rest => (parseStringList rest).map (s :: ·)
  | _ :: _ => .error "Expected string"

/-- `z.array(z.string())` on a required field. -/
def parseRequiredStringArray (args : Args) (k : String) : Except String (List String) :=
  match args.lookup k with
  | some (.arr xs) => parseStringList xs
  | some _ => .error (k ++ ": Expected array")
  | none => .error (k ++ ": Required")

/-- `z.array(z.string()).optional()`. -/
def parseOptionalStringArray (args : Args) (k : String) :
    Except String (Option (List String)) :=
  match args.lookup k with
  | none => .ok none
  | some (.arr xs) => (parseStringList xs).map some
  | some _ => .error (k ++ ": Expected array")

/-- The membership test of `z.enum(['read', 'read/write'])`. -/
def accessEnumOk (s : String) : Bool := s == "read" || s == "read/write"

/-- `z.enum(['read', 'read/write']).optional().default('read')` on the
`access` field of `CreateServiceTokenSchema`. -/
def parseAccessWithDefault (args : Args) : Except String String :=
  match args.lookup "access" with
  | none => .ok "read"
  | some (.str s) => if accessEnumOk s then .ok s else .error "access: Invalid enum value"
  | some _ => .error "access: Invalid enum value"

/-- `ListSecretsSchema.parse`: `{ project, config }`. -/
def ListSecretsSchema_parse (args : Args) : Except String (String × String) :=
  (parseRequiredString args "project").bind fun project =>
  (parseRequiredString args "config").bind fun config =>
  .ok (project, config)

/-- `GetSecretSchema.parse`: `{ project, config, name }`. -/
def GetSecretSchema_parse (args : Args) : Except String (String × String × String) :=
  (parseRequiredString args "project").bind fun project =>
  (parseRequiredString args "config").bind fun config =>
  (parseRequiredString args "name").bind fun name =>
  .ok (project, config, name)

/-- `SetSecretSchema.parse`: `{ project, config, name, value }`. -/
def SetSecretSchema_parse (args : Args) :
    Except String (String × String × String × String) :=
  (parseRequiredString args "project").bind fun project =>
  (parseRequiredString args "config").bind fun config =>
  (parseRequiredString args "name").bind fun name =>
  (parseRequiredString args "value").bind fun value =>
  .ok (project, config, name, value)

/-- `DeleteSecretSchema.parse`: `{ project, config, secrets }`. -/
def DeleteSecretSchema_parse (args : Args) :
    Except String (String × String × List String) :=
  (parseRequiredString args "project").bind fun project =>
  (parseRequiredString args "config").bind fun config =>
  (parseRequiredStringArray args "secrets").bind fun secrets =>
  .ok (project, config, secrets)

/-- `PromoteSecretsSchema.parse`: `{ project, sourceConfig, targetConfig,
excludeKeys? }`. -/
def PromoteSecretsSchema_parse (args : Args) :
    Except String (String × String × String × Option (List String)) :=
  (parseRequiredString args "project").bind fun project =>
  (parseRequiredString args "sourceConfig").bind fun sourceConfig =>
  (parseRequiredString args "targetConfig").bind fun targetConfig =>
  (parseOptionalStringArray args "excludeKeys").bind fun excludeKeys =>
  .ok (project, sourceConfig, targetConfig, excludeKeys)

/-- `CreateServiceTokenSchema.parse`: `{ project, config, name, access }`
with the access default applied. -/
def CreateServiceTokenSchema_parse (args : Args) :
    Except String (String × String × String × String) :=
  (parseRequiredString args "project").bind fun project =>
  (parseRequiredString args "config").bind fun config =>
  (parseRequiredString args "name").bind fun name =>
  (parseAccessWithDefault args).bind fun access =>
  .ok (project, config, name, access)

/-- `GetActivityLogsSchema.parse`: `{ project?, page = 1, perPage = 20 }`. -/
def GetActivityLogsSchema_parse (args : Args) :
    Except String (Option String × Int × Int) :=
  (parseOptionalString args "project").bind fun project =>
  (parseNumberWithDefault args "page" 1).bind fun page =>
  (parseNumberWithDefault args "perPage" 20).bind fun perPage =>
  .ok (project, page, perPage)

/-! ## Dispatcher (`CallToolRequestSchema` handler of `src/index.ts`) -/

/-- One `{ type: 'text', text }` content item of a response envelope. -/
structure TextContent where
  type : String
  text : String

/-- The response envelope `{ content: [...] }` the handler returns. -/
structure ToolResponse where
  content : List TextContent

/-- A single-text response envelope. -/
def textResponse (t : String) : ToolResponse := ⟨[⟨"text", t⟩]⟩

/-- A response carrying `JSON.stringify`-serialised data. -/
def jsonResponse (j : Json) : ToolResponse := textResponse j.stringify

/-- `JSON.stringify({ name, value })`: an `undefined` value is omitted. -/
def DopplerClient.DopplerSecret.toJson (s : DopplerClient.DopplerSecret) : Json :=
  Json.obj ([("name", Json.str s.name)] ++
    (match s.value with
     | some v => [("value", v)]
     | none => []))

/-- The body of the `try` block: either a response envelope or the thrown
error's message, in both cases together with the HTTP requests issued
before returning or throwing. -/
abbrev DispatchResult := Except (String × List RemoteCall) (ToolResponse × List RemoteCall)

/-- The case labels of the dispatcher's `switch (name)` (in source order). -/
def dispatchCases : List String :=
  ["doppler_list_projects", "doppler_list_secrets", "doppler_get_secret",
   "doppler_set_secret", "doppler_delete_secrets", "doppler_promote_secrets",
   "doppler_create_service_token", "doppler_get_activity_logs"]

/-- The `switch (name)` of the tool-call handler: schema validation, client
invocation, response formatting; every `throw` becomes `.error` (zod
failures, client failures, property access on an `undefined` token, and
the default branch's `Unknown tool`). -/
def dispatchInner (net : Network) (name : String) (args : Args) : DispatchResult :=
  match name with
  | "doppler_list_projects" =>
      let r := DopplerClient.listProjects net
      match r.result with
      | .ok projects => .ok (jsonResponse projects, r.calls)
      | .error msg => .error (msg, r.calls)
  | "doppler_list_secrets" =>
      match ListSecretsSchema_parse args with
      | .error e => .error (e, [])
      | .ok (project, config) =>
          let r := DopplerClient.listSecrets net project config
          match r.result with
          | .ok secrets => .ok (jsonResponse secrets, r.calls)
          | .error msg => .error (msg, r.calls)
  | "doppler_get_secret" =>
      match GetSecretSchema_parse args with
      | .error e => .error (e, [])
      | .ok (project, config, secretName) =>
          let r := DopplerClient.getSecret net project config secretName
          match r.result with
          | .ok secret => .ok (jsonResponse secret.toJson, r.calls)
          | .error msg => .error (msg, r.calls)
  | "doppler_set_secret" =>
      match SetSecretSchema_parse args with
      | .error e => .error (e, [])
      | .ok (project, config, secretName, value) =>
          let r := DopplerClient.setSecret net project config secretName value
          match r.result with
          | .ok result =>
              .ok (textResponse ("Secret \x27" ++ secretName ++ "\x27 has been " ++
                (if result.created then "created" else "updated") ++
                " successfully in " ++ project ++ "/" ++ config), r.calls)
          | .error msg => .error (msg, r.calls)
  | "doppler_delete_secrets" =>
      match DeleteSecretSchema_parse args with
      | .error e => .error (e, [])
      | .ok (project, config, secrets) =>
          let r := DopplerClient.deleteSecrets net project config secrets
          match r.result with
          | .ok _ =>
              .ok (textResponse ("Successfully deleted " ++ toString secrets.length ++
                " secret(s) from " ++ project ++ "/" ++ config), r.calls)
          | .error msg => .error (msg, r.calls)
  | "doppler_promote_secrets" =>
      match PromoteSecretsSchema_parse args with
      | .error e => .error (e, [])
      | .ok (project, sourceConfig, targetConfig, excludeKeys) =>
          let r := DopplerClient.promoteSecrets net project sourceConfig targetConfig excludeKeys
          match r.result with
          | .ok result =>
              .ok (textResponse ("Successfully promoted " ++ toString result.count ++
                " secrets from " ++ project ++ "/" ++ sourceConfig ++
                " to " ++ project ++ "/" ++ targetConfig), r.calls)
          | .error msg => .error (msg, r.calls)
  | "doppler_create_service_token" =>
      match CreateServiceTokenSchema_parse args with
      | .error e => .error (e, [])
      | .ok (project, config, tokenName, access) =>
          let r := DopplerClient.createServiceToken net project config tokenName access
          match r.result with
          | .ok none =>
              -- `token.key` on an `undefined` token throws a TypeError,
              -- caught by the handler's catch like every other error.
              .error ("Cannot read properties of undefined (reading \x27key\x27)", r.calls)
          | .ok (some token) =>
              .ok (textResponse ("Service token created successfully:\nToken: " ++
                jsDisplay (token.getField "key") ++ "\nAccess: " ++
                jsDisplay (token.getField "access") ++
                "\n\nIMPORTANT: Save this token securely, it won\x27t be shown again!"),
                r.calls)
          | .error msg => .error (msg, r.calls)
  | "doppler_get_activity_logs" =>
      match GetActivityLogsSchema_parse args with
      | .error e => .error (e, [])
      | .ok (project, page, perPage) =>
          let r := DopplerClient.getActivityLogs net project page perPage
          match r.result with
          | .ok logs => .ok (jsonResponse logs, r.calls)
          | .error msg => .error (msg, r.calls)
  | _ => .error ("Unknown tool: " ++ name, [])

/-- The whole tool-call handler: the `try/catch` around `dispatchInner`.
Every thrown error is converted to a normal response whose single text is
`'Error: ' + error.message`; the handler itself never throws (it is a
total function).  The second component records every HTTP request made. -/
def handleToolCall (net : Network) (name : String) (args : Args) :
    ToolResponse × List RemoteCall :=
  match dispatchInner net name args with
  | .ok (resp, calls) => (resp, calls)
  | .error (msg, calls) => (textResponse ("Error: " ++ msg), calls)

/-- Whether a request is a write to the secrets endpoint (the only way any
config's secrets change). -/
def isSecretsPost (c : RemoteCall) : Bool :=
  c.method == "POST" && c.path == "/configs/config/secrets"

/-- The set of secret entries written by the requests of one operation: the
`secrets` object of its `POST /configs/config/secrets` request, or nothing
when no such request was issued. -/
def postedSecrets (calls : List RemoteCall) : List (String × Json) :=
  match calls.find? isSecretsPost with
  | some c => (jsOr (c.body.getField "secrets") (Json.obj [])).entries
  | none => []

/-! ## Theorems -/

/-- Whether a client method threw (its result is the thrown `Error`'s
message). -/
def OpResult.failed {α : Type} (r : OpResult α) : Bool :=
  match r.result with
  | .error _ => true
  | .ok _ => false

/-- C9: `validateConnection` never throws — it is a total function into
`Bool` — and returns `true` exactly when the probe of the identity
endpoint `/me` succeeds: `false` for every non-2xx response and every
transport error. -/
theorem validateConnection_total_boolean :
    (∀ (net : Network) (d : Json),
        net DopplerClient.validateConnectionCall = .ok d →
        DopplerClient.validateConnection net = true)
    ∧ (∀ (net : Network) (status : Nat) (body : String),
        net DopplerClient.validateConnectionCall = .httpError status body →
        DopplerClient.validateConnection net = false)
    ∧ (∀ (net : Network) (message : String),
        net DopplerClient.validateConnectionCall = .transportError message →
        DopplerClient.validateConnection net = false) := by
  refine ⟨?_, ?_, ?_⟩ <;> intros <;> simp [DopplerClient.validateConnection, *]

/-- C4: when the remote call of `getSecret` succeeds but the requested name
is absent from the response's secrets object, `getSecret` returns
`{ name, value: undefined }` instead of throwing. -/
theorem getSecret_absent_name_yields_undefined
    (net : Network) (project config name : String) (data : Json)
    (hok : net (DopplerClient.getSecretCall project config name) = .ok data)
    (hmiss : (jsOr (data.getField "secrets") (Json.obj [])).getField name = none) :
    (DopplerClient.getSecret net project config name).result = .ok ⟨name, none⟩ := by
  unfold DopplerClient.getSecret
  rw [hok]
  simp [hmiss]

/-- Witness for C4: the end-to-end scenario of the spec —
`getSecret("p1","dev","MISSING")` against the remote response
`{secrets:{}}` returns `{name:"MISSING", value: undefined}`. -/
theorem getSecret_absent_name_yields_undefined_witness :
    (DopplerClient.getSecret
        (fun _ => RemoteOutcome.ok (Json.obj [("secrets", Json.obj [])]))
        "p1" "dev" "MISSING").result = .ok ⟨"MISSING", none⟩ :=
  getSecret_absent_name_yields_undefined _ "p1" "dev" "MISSING"
    (Json.obj [("secrets", Json.obj [])]) rfl rfl

/-- C10: when every downloaded key is filtered out, `promoteSecrets`
issues no write request at all — its only HTTP request is the source
download — and returns `count = 0`. -/
theorem promoteSecrets_empty_filter_issues_no_write
    (net : Network) (project sourceConfig targetConfig : String)
    (excludeKeys : Option (List String)) (S : List (String × Json))
    (hdl : net (DopplerClient.promoteDownloadCall project sourceConfig) = .ok (Json.obj S))
    (hempty : S.filter (fun kv => DopplerClient.promoteKeep excludeKeys kv.1) = []) :
    (DopplerClient.promoteSecrets net project sourceConfig targetConfig excludeKeys).calls
        = [DopplerClient.promoteDownloadCall project sourceConfig]
    ∧ (DopplerClient.promoteSecrets net project sourceConfig targetConfig excludeKeys).result
        = .ok ⟨0⟩ := by
  unfold DopplerClient.promoteSecrets
  simp only [hdl, Json.isFalsy, Json.entries, Bool.false_eq_true, if_false]
  rw [hempty]
  simp

/-- Witness for C10: a source set `{A:"1"}` entirely excluded by `["A"]`
leads to one GET and no POST, with count 0. -/
theorem promoteSecrets_empty_filter_issues_no_write_witness :
    (DopplerClient.promoteSecrets
        (fun _ => RemoteOutcome.ok (Json.obj [("A", Json.str "1")]))
        "p" "dev" "prd" (some ["A"])).calls
      = [DopplerClient.promoteDownloadCall "p" "dev"]
    ∧ (DopplerClient.promoteSecrets
        (fun _ => RemoteOutcome.ok (Json.obj [("A", Json.str "1")]))
        "p" "dev" "prd" (some ["A"])).result = .ok ⟨0⟩ :=
  promoteSecrets_empty_filter_issues_no_write _ "p" "dev" "prd" (some ["A"])
    [("A", Json.str "1")] rfl rfl

/-- C1: for every downloaded source secret map `S` and exclusion list
`excludeKeys`, `promoteSecrets` writes to the target config exactly the
entries of `S` whose key is not a member of `excludeKeys` (exact string
equality), and returns their number as `count`. -/
theorem promoteSecrets_writes_set_difference
    (net : Network) (project sourceConfig targetConfig : String)
    (excludeKeys : List String) (S : List (String × Json))
    (hdl : net (DopplerClient.promoteDownloadCall project sourceConfig) = .ok (Json.obj S))
    (hwr : (net (DopplerClient.secretsPostCall project targetConfig
        (S.filter (fun kv => !excludeKeys.contains kv.1)))).isOk = true) :
    (DopplerClient.promoteSecrets net project sourceConfig targetConfig
        (some excludeKeys)).result
        = .ok ⟨(S.filter (fun kv => !excludeKeys.contains kv.1)).length⟩
    ∧ postedSecrets (DopplerClient.promoteSecrets net project sourceConfig targetConfig
        (some excludeKeys)).calls
        = S.filter (fun kv => !excludeKeys.contains kv.1) := by
  unfold DopplerClient.promoteSecrets
  simp only [hdl, Json.isFalsy, Json.entries, Bool.false_eq_true, if_false,
    DopplerClient.promoteKeep]
  by_cases hpos : 0 < (S.filter (fun kv => !excludeKeys.contains kv.1)).length
  · rw [if_pos hpos]
    cases hw : net (DopplerClient.secretsPostCall project targetConfig
        (S.filter (fun kv => !excludeKeys.contains kv.1))) with
    | ok d => exact ⟨rfl, rfl⟩
    | httpError st b => rw [hw] at hwr; simp [RemoteOutcome.isOk] at hwr
    | transportError m => rw [hw] at hwr; simp [RemoteOutcome.isOk] at hwr
  · rw [if_neg hpos]
    have h0 : S.filter (fun kv => !excludeKeys.contains kv.1) = [] :=
      List.length_eq_zero.mp (by omega)
    refine ⟨rfl, ?_⟩
    rw [h0]
    rfl

/-- Witness for C1: the spec's example — source `{A:"1", B:"2", C:"3"}`,
exclude `["B"]`: written set `{A:"1", C:"3"}`, count 2. -/
theorem promoteSecrets_writes_set_difference_witness :
    (DopplerClient.promoteSecrets
        (fun c => if c.path == "/configs/config/secrets/download"
          then RemoteOutcome.ok
            (Json.obj [("A", Json.str "1"), ("B", Json.str "2"), ("C", Json.str "3")])
          else RemoteOutcome.ok Json.null)
        "p1" "dev" "staging" (some ["B"])).result = .ok ⟨2⟩
    ∧ postedSecrets (DopplerClient.promoteSecrets
        (fun c => if c.path == "/configs/config/secrets/download"
          then RemoteOutcome.ok
            (Json.obj [("A", Json.str "1"), ("B", Json.str "2"), ("C", Json.str "3")])
          else RemoteOutcome.ok Json.null)
        "p1" "dev" "staging" (some ["B"])).calls
      = [("A", Json.str "1"), ("C", Json.str "3")] :=
  promoteSecrets_writes_set_difference _ "p1" "dev" "staging" ["B"]
    [("A", Json.str "1"), ("B", Json.str "2"), ("C", Json.str "3")] rfl rfl

/-- A failed `listProjects` always carries the same message. -/
theorem listProjects_failed_result (net : Network)
    (h : (DopplerClient.listProjects net).failed = true) :
    (DopplerClient.listProjects net).result = .error "Failed to list projects" := by
  unfold DopplerClient.listProjects at h ⊢
  cases o : net DopplerClient.listProjectsCall <;> simp_all [OpResult.failed]

/-- A failed `listConfigs` message depends only on the project. -/
theorem listConfigs_failed_result (net : Network) (project : String)
    (h : (DopplerClient.listConfigs net project).failed = true) :
    (DopplerClient.listConfigs net project).result
      = .error ("Failed to list configs for project " ++ project) := by
  unfold DopplerClient.listConfigs at h ⊢
  cases o : net (DopplerClient.listConfigsCall project) <;> simp_all [OpResult.failed]

/-- A failed `listSecrets` message depends only on project and config. -/
theorem listSecrets_failed_result (net : Network) (project config : String)
    (h : (DopplerClient.listSecrets net project config).failed = true) :
    (DopplerClient.listSecrets net project config).result
      = .error ("Failed to list secrets for " ++ project ++ "/" ++ config) := by
  unfold DopplerClient.listSecrets at h ⊢
  cases o : net (DopplerClient.listSecretsCall project config) <;> simp_all [OpResult.failed]

/-- A failed `getSecret` message depends only on the secret name. -/
theorem getSecret_failed_result (net : Network) (project config name : String)
    (h : (DopplerClient.getSecret net project config name).failed = true) :
    (DopplerClient.getSecret net project config name).result
      = .error ("Failed to get secret " ++ name) := by
  unfold DopplerClient.getSecret at h ⊢
  cases o : net (DopplerClient.getSecretCall project config name) <;>
    simp_all [OpResult.failed]

/-- A failed `setSecret` message depends only on the secret name. -/
theorem setSecret_failed_result (net : Network) (project config name value : String)
    (h : (DopplerClient.setSecret net project config name value).failed = true) :
    (DopplerClient.setSecret net project config name value).result
      = .error ("Failed to set secret " ++ name) := by
  unfold DopplerClient.setSecret at h ⊢
  cases o : net (DopplerClient.secretsPostCall project config [(name, Json.str value)]) <;>
    simp_all [OpResult.failed]

/-- A failed `deleteSecrets` always carries the same message. -/
theorem deleteSecrets_failed_result (net : Network) (project config : String)
    (secrets : List String)
    (h : (DopplerClient.deleteSecrets net project config secrets).failed = true) :
    (DopplerClient.deleteSecrets net project config secrets).result
      = .error "Failed to delete secrets" := by
  unfold DopplerClient.deleteSecrets at h ⊢
  cases o : net (DopplerClient.deleteSecretsCall project config secrets) <;>
    simp_all [OpResult.failed]

/-- A failed `promoteSecrets` always carries the same message, whether the
download or the write failed. -/
theorem promoteSecrets_failed_result (net : Network) (project sc tc : String)
    (excl : Option (List String))
    (h : (DopplerClient.promoteSecrets net project sc tc excl).failed = true) :
    (DopplerClient.promoteSecrets net project sc tc excl).result
      = .error "Failed to promote secrets" := by
  unfold DopplerClient.promoteSecrets at h ⊢
  cases o : net (DopplerClient.promoteDownloadCall project sc) <;>
    simp only [o] at h ⊢
  case ok data =>
    set F := List.filter (fun kv => DopplerClient.promoteKeep excl kv.1)
        (if data.isFalsy = true then Json.obj [] else data).entries with hF
    by_cases hc : 0 < F.length
    · rw [if_pos hc] at h ⊢
      cases ow : net (DopplerClient.secretsPostCall project tc F) <;>
        simp only [ow] at h ⊢ <;> simp_all [OpResult.failed]
    · rw [if_neg hc] at h
      simp [OpResult.failed] at h

/-- A failed `createServiceToken` message depends only on project and
config. -/
theorem createServiceToken_failed_result (net : Network)
    (project config name access : String)
    (h : (DopplerClient.createServiceToken net project config name access).failed = true) :
    (DopplerClient.createServiceToken net project config name access).result
      = .error ("Failed to create service token for " ++ project ++ "/" ++ config) := by
  unfold DopplerClient.createServiceToken at h ⊢
  cases o : net (DopplerClient.createServiceTokenCall project config name access) <;>
    simp_all [OpResult.failed]

/-- A failed `getActivityLogs` always carries the same message. -/
theorem getActivityLogs_failed_result (net : Network) (project : Option String)
    (page perPage : Int)
    (h : (DopplerClient.getActivityLogs net project page perPage).failed = true) :
    (DopplerClient.getActivityLogs net project page perPage).result
      = .error "Failed to get activity logs" := by
  unfold DopplerClient.getActivityLogs at h ⊢
  cases o : net (DopplerClient.activityLogsCall project page perPage) <;>
    simp_all [OpResult.failed]

/-- C8: for every client operation, the error raised to the caller does not
vary with the remote failure: two runs of the same operation with the
same caller-supplied parameters that both fail — with any combination of
statuses, bodies or transport errors — produce identical error results
(the fixed human-readable summary of the operation, parameterised only by
caller-supplied values). -/
theorem failed_operations_leak_no_remote_detail :
    (∀ net1 net2 : Network,
        (DopplerClient.listProjects net1).failed = true →
        (DopplerClient.listProjects net2).failed = true →
        (DopplerClient.listProjects net1).result = (DopplerClient.listProjects net2).result)
    ∧ (∀ (net1 net2 : Network) (project : String),
        (DopplerClient.listConfigs net1 project).failed = true →
        (DopplerClient.listConfigs net2 project).failed = true →
        (DopplerClient.listConfigs net1 project).result
          = (DopplerClient.listConfigs net2 project).result)
    ∧ (∀ (net1 net2 : Network) (project config : String),
        (DopplerClient.listSecrets net1 project config).failed = true →
        (DopplerClient.listSecrets net2 project config).failed = true →
        (DopplerClient.listSecrets net1 project config).result
          = (DopplerClient.listSecrets net2 project config).result)
    ∧ (∀ (net1 net2 : Network) (project config name : String),
        (DopplerClient.getSecret net1 project config name).failed = true →
        (DopplerClient.getSecret net2 project config name).failed = true →
        (DopplerClient.getSecret net1 project config name).result
          = (DopplerClient.getSecret net2 project config name).result)
    ∧ (∀ (net1 net2 : Network) (project config name value : String),
        (DopplerClient.setSecret net1 project config name value).failed = true →
        (DopplerClient.setSecret net2 project config name value).failed = true →
        (DopplerClient.setSecret net1 project config name value).result
          = (DopplerClient.setSecret net2 project config name value).result)
    ∧ (∀ (net1 net2 : Network) (project config : String) (secrets : List String),
        (DopplerClient.deleteSecrets net1 project config secrets).failed = true →
        (DopplerClient.deleteSecrets net2 project config secrets).failed = true →
        (DopplerClient.deleteSecrets net1 project config secrets).result
          = (DopplerClient.deleteSecrets net2 project config secrets).result)
    ∧ (∀ (net1 net2 : Network) (project sc tc : String) (excl : Option (List String)),
        (DopplerClient.promoteSecrets net1 project sc tc excl).failed = true →
        (DopplerClient.promoteSecrets net2 project sc tc excl).failed = true →
        (DopplerClient.promoteSecrets net1 project sc tc excl).result
          = (DopplerClient.promoteSecrets net2 project sc tc excl).result)
    ∧ (∀ (net1 net2 : Network) (project config name access : String),
        (DopplerClient.createServiceToken net1 project config name access).failed = true →
        (DopplerClient.createServiceToken net2 project config name access).failed = true →
        (DopplerClient.createServiceToken net1 project config name access).result
          = (DopplerClient.createServiceToken net2 project config name access).result)
    ∧ (∀ (net1 net2 : Network) (project : Option String) (page perPage : Int),
        (DopplerClient.getActivityLogs net1 project page perPage).failed = true →
        (DopplerClient.getActivityLogs net2 project page perPage).failed = true →
        (DopplerClient.getActivityLogs net1 project page perPage).result
          = (DopplerClient.getActivityLogs net2 project page perPage).result) := by
  refine ⟨?_, ?_, ?_, ?_, ?_, ?_, ?_, ?_, ?_⟩
  · intro net1 net2 h1 h2
    rw [listProjects_failed_result net1 h1, listProjects_failed_result net2 h2]
  · intro net1 net2 project h1 h2
    rw [listConfigs_failed_result net1 project h1, listConfigs_failed_result net2 project h2]
  · intro net1 net2 project config h1 h2
    rw [listSecrets_failed_result net1 project config h1,
      listSecrets_failed_result net2 project config h2]
  · intro net1 net2 project config name h1 h2
    rw [getSecret_failed_result net1 project config name h1,
      getSecret_failed_result net2 project config name h2]
  · intro net1 net2 project config name value h1 h2
    rw [setSecret_failed_result net1 project config name value h1,
      setSecret_failed_result net2 project config name value h2]
  · intro net1 net2 project config secrets h1 h2
    rw [deleteSecrets_failed_result net1 project config secrets h1,
      deleteSecrets_failed_result net2 project config secrets h2]
  · intro net1 net2 project sc tc excl h1 h2
    rw [promoteSecrets_failed_result net1 project sc tc excl h1,
      promoteSecrets_failed_result net2 project sc tc excl h2]
  · intro net1 net2 project config name access h1 h2
    rw [createServiceToken_failed_result net1 project config name access h1,
      createServiceToken_failed_result net2 project config name access h2]
  · intro net1 net2 project page perPage h1 h2
    rw [getActivityLogs_failed_result net1 project page perPage h1,
      getActivityLogs_failed_result net2 project page perPage h2]

/-- Witness for C8: `getSecret` failing with a 401 and with a 500 carrying
different bodies yields the same error result. -/
theorem failed_operations_leak_no_remote_detail_witness :
    (DopplerClient.getSecret (fun _ => RemoteOutcome.httpError 401 "Unauthorized")
        "p1" "dev" "API_KEY").result
      = (DopplerClient.getSecret (fun _ => RemoteOutcome.httpError 500 "Internal Server Error")
        "p1" "dev" "API_KEY").result :=
  failed_operations_leak_no_remote_detail.2.2.2.1
    (fun _ => RemoteOutcome.httpError 401 "Unauthorized")
    (fun _ => RemoteOutcome.httpError 500 "Internal Server Error")
    "p1" "dev" "API_KEY" rfl rfl

/-- Whether the dispatch body threw (before the handler's catch). -/
def dispatchThrew (r : DispatchResult) : Bool :=
  match r with
  | .error _ => true
  | .ok _ => false

/-- C2: whenever the dispatch body throws — validation failure, client
error or unknown tool name — the tool-call handler still returns a normal
response envelope whose single text content begins with the marker
`Error: ` followed by the thrown error's message; the handler itself is a
total function, so no exception crosses the dispatch boundary. -/
theorem dispatch_errors_contained (net : Network) (name : String) (args : Args)
    (h : dispatchThrew (dispatchInner net name args) = true) :
    ∃ msg, (handleToolCall net name args).1.content
      = [{ type := "text", text := "Error: " ++ msg }] := by
  unfold handleToolCall
  cases hd : dispatchInner net name args with
  | ok v => rw [hd] at h; simp [dispatchThrew] at h
  | error ec => exact ⟨ec.1, by simp [textResponse]⟩

/-- Witness for C2: an unknown tool name is answered with an
`Error: Unknown tool: ...` text envelope. -/
theorem dispatch_errors_contained_witness :
    ∃ msg, (handleToolCall (fun _ => RemoteOutcome.ok Json.null)
        "doppler_rotate_secret" []).1.content
      = [{ type := "text", text := "Error: " ++ msg }] :=
  dispatch_errors_contained (fun _ => RemoteOutcome.ok Json.null)
    "doppler_rotate_secret" [] rfl

/-- A required string field that is absent makes its zod check fail. -/
theorem parseRequiredString_missing {args : Args} {k : String}
    (h : args.lookup k = none) :
    parseRequiredString args k = .error (k ++ ": Required") := by
  simp [parseRequiredString, h]

/-- A `bind` whose first step fails, fails. -/
theorem exists_error_bind_left {α β : Type} {x : Except String α} {e0 : String}
    (h : x = .error e0) (f : α → Except String β) : ∃ e, x.bind f = .error e :=
  ⟨e0, by rw [h]; rfl⟩

/-- A `bind` whose continuation always fails, fails. -/
theorem exists_error_bind_right {α β : Type} (x : Except String α)
    {f : α → Except String β} (hf : ∀ a, ∃ e, f a = .error e) :
    ∃ e, x.bind f = .error e := by
  cases x with
  | error e => exact ⟨e, rfl⟩
  | ok a => simpa [Except.bind] using hf a

/-- `ListSecretsSchema` fails when a required field is missing. -/
theorem ListSecretsSchema_parse_missing {args : Args} {k : String}
    (hk : k ∈ ["project", "config"]) (h : args.lookup k = none) :
    ∃ e, ListSecretsSchema_parse args = .error e := by
  unfold ListSecretsSchema_parse
  fin_cases hk
  · exact exists_error_bind_left (parseRequiredString_missing h) _
  · exact exists_error_bind_right _ fun p =>
      exists_error_bind_left (parseRequiredString_missing h) _

/-- `GetSecretSchema` fails when a required field is missing. -/
theorem GetSecretSchema_parse_missing {args : Args} {k : String}
    (hk : k ∈ ["project", "config", "name"]) (h : args.lookup k = none) :
    ∃ e, GetSecretSchema_parse args = .error e := by
  unfold GetSecretSchema_parse
  fin_cases hk
  · exact exists_error_bind_left (parseRequiredString_missing h) _
  · exact exists_error_bind_right _ fun p =>
      exists_error_bind_left (parseRequiredString_missing h) _
  · exact exists_error_bind_right _ fun p => exists_error_bind_right _ fun c =>
      exists_error_bind_left (parseRequiredString_missing h) _

/-- `SetSecretSchema` fails when a required field is missing. -/
theorem SetSecretSchema_parse_missing {args : Args} {k : String}
    (hk : k ∈ ["project", "config", "name", "value"]) (h : args.lookup k = none) :
    ∃ e, SetSecretSchema_parse args = .error e := by
  unfold SetSecretSchema_parse
  fin_cases hk
  · exact exists_error_bind_left (parseRequiredString_missing h) _
  · exact exists_error_bind_right _ fun p =>
      exists_error_bind_left (parseRequiredString_missing h) _
  · exact exists_error_bind_right _ fun p => exists_error_bind_right _ fun c =>
      exists_error_bind_left (parseRequiredString_missing h) _
  · exact exists_error_bind_right _ fun p => exists_error_bind_right _ fun c =>
      exists_error_bind_right _ fun n =>
        exists_error_bind_left (parseRequiredString_missing h) _

/-- `DeleteSecretSchema` fails when a required field is missing. -/
theorem DeleteSecretSchema_parse_missing {args : Args} {k : String}
    (hk : k ∈ ["project", "config", "secrets"]) (h : args.lookup k = none) :
    ∃ e, DeleteSecretSchema_parse args = .error e := by
  unfold DeleteSecretSchema_parse
  fin_cases hk
  · exact exists_error_bind_left (parseRequiredString_missing h) _
  · exact exists_error_bind_right _ fun p =>
      exists_error_bind_left (parseRequiredString_missing h) _
  · exact exists_error_bind_right _ fun p => exists_error_bind_right _ fun c =>
      exists_error_bind_left
        (show parseRequiredStringArray args "secrets" = .error ("secrets" ++ ": Required")
          by simp [parseRequiredStringArray, h]) _

/-- `PromoteSecretsSchema` fails when a required field is missing. -/
theorem PromoteSecretsSchema_parse_missing {args : Args} {k : String}
    (hk : k ∈ ["project", "sourceConfig", "targetConfig"]) (h : args.lookup k = none) :
    ∃ e, PromoteSecretsSchema_parse args = .error e := by
  unfold PromoteSecretsSchema_parse
  fin_cases hk
  · exact exists_error_bind_left (parseRequiredString_missing h) _
  · exact exists_error_bind_right _ fun p =>
      exists_error_bind_left (parseRequiredString_missing h) _
  · exact exists_error_bind_right _ fun p => exists_error_bind_right _ fun sc =>
      exists_error_bind_left (parseRequiredString_missing h) _

/-- `CreateServiceTokenSchema` fails when a required field is missing. -/
theorem CreateServiceTokenSchema_parse_missing {args : Args} {k : String}
    (hk : k ∈ ["project", "config", "name"]) (h : args.lookup k = none) :
    ∃ e, CreateServiceTokenSchema_parse args = .error e := by
  unfold CreateServiceTokenSchema_parse
  fin_cases hk
  · exact exists_error_bind_left (parseRequiredString_missing h) _
  · exact exists_error_bind_right _ fun p =>
      exists_error_bind_left (parseRequiredString_missing h) _
  · exact exists_error_bind_right _ fun p => exists_error_bind_right _ fun c =>
      exists_error_bind_left (parseRequiredString_missing h) _

/-- C3: for every catalog tool and every required parameter its schema
declares, calling the tool-call handler with that parameter absent yields
a validation error response and issues no HTTP request at all — schema
validation runs strictly before the client method. -/
theorem missing_required_param_validates_before_remote
    (net : Network) (t : Tool) (ht : t ∈ TOOLS) (k : String)
    (hk : k ∈ t.inputSchema.required) (args : Args) (hmiss : args.lookup k = none) :
    (handleToolCall net t.name args).2 = []
    ∧ ∃ msg, (handleToolCall net t.name args).1.content
        = [{ type := "text", text := "Error: " ++ msg }] := by
  fin_cases ht
  · simp [TOOLS] at hk
  · dsimp only at hk ⊢
    obtain ⟨e, he⟩ := ListSecretsSchema_parse_missing hk hmiss
    unfold handleToolCall dispatchInner
    simp only [he]
    exact ⟨trivial, ⟨e, rfl⟩⟩
  · dsimp only at hk ⊢
    obtain ⟨e, he⟩ := GetSecretSchema_parse_missing hk hmiss
    unfold handleToolCall dispatchInner
    simp only [he]
    exact ⟨trivial, ⟨e, rfl⟩⟩
  · dsimp only at hk ⊢
    obtain ⟨e, he⟩ := SetSecretSchema_parse_missing hk hmiss
    unfold handleToolCall dispatchInner
    simp only [he]
    exact ⟨trivial, ⟨e, rfl⟩⟩
  · dsimp only at hk ⊢
    obtain ⟨e, he⟩ := DeleteSecretSchema_parse_missing hk hmiss
    unfold handleToolCall dispatchInner
    simp only [he]
    exact ⟨trivial, ⟨e, rfl⟩⟩
  · dsimp only at hk ⊢
    obtain ⟨e, he⟩ := PromoteSecretsSchema_parse_missing hk hmiss
    unfold handleToolCall dispatchInner
    simp only [he]
    exact ⟨trivial, ⟨e, rfl⟩⟩
  · dsimp only at hk ⊢
    obtain ⟨e, he⟩ := CreateServiceTokenSchema_parse_missing hk hmiss
    unfold handleToolCall dispatchInner
    simp only [he]
    exact ⟨trivial, ⟨e, rfl⟩⟩
  · simp [TOOLS] at hk

/-- Witness for C3: `doppler_list_secrets` called with an empty argument
object produces a validation error and zero HTTP requests. -/
theorem missing_required_param_validates_before_remote_witness :
    (handleToolCall (fun _ => RemoteOutcome.ok Json.null) "doppler_list_secrets" []).2 = []
    ∧ ∃ msg, (handleToolCall (fun _ => RemoteOutcome.ok Json.null)
        "doppler_list_secrets" []).1.content
      = [{ type := "text", text := "Error: " ++ msg }] :=
  missing_required_param_validates_before_remote
    (fun _ => RemoteOutcome.ok Json.null) (TOOLS.get ⟨1, by decide⟩) (by decide)
    "project" (by decide) [] rfl

/-- C5: catalog/dispatcher parity.  The catalog's tool names are exactly
the dispatcher's case labels, in order and without duplicates (so each
catalog entry has exactly one case and each case exactly one entry);
every name outside the case list hits only the default `Unknown tool`
branch, and every case label is genuinely handled (some invocation of it
returns a success response). -/
theorem catalog_dispatcher_parity :
    TOOLS.map Tool.name = dispatchCases
    ∧ dispatchCases.Nodup
    ∧ (∀ (name : String) (net : Network) (args : Args), name ∉ dispatchCases →
        dispatchInner net name args = .error ("Unknown tool: " ++ name, []))
    ∧ (∀ name ∈ dispatchCases,
        ∃ (net : Network) (args : Args) (r : ToolResponse × List RemoteCall),
        dispatchInner net name args = .ok r) := by
  refine ⟨by decide, by decide, ?_, ?_⟩
  · intro name net args hname
    simp [dispatchCases] at hname
    unfold dispatchInner
    split
    all_goals first | rfl | simp_all
  · intro name hname
    fin_cases hname
    · exact ⟨fun _ => RemoteOutcome.ok (Json.obj []), [], _, rfl⟩
    · exact ⟨fun _ => RemoteOutcome.ok (Json.obj []),
        [("project", Json.str "p"), ("config", Json.str "c")], _, rfl⟩
    · exact ⟨fun _ => RemoteOutcome.ok (Json.obj []),
        [("project", Json.str "p"), ("config", Json.str "c"), ("name", Json.str "n")],
        _, rfl⟩
    · exact ⟨fun _ => RemoteOutcome.ok (Json.obj []),
        [("project", Json.str "p"), ("config", Json.str "c"), ("name", Json.str "n"),
          ("value", Json.str "v")], _, rfl⟩
    · exact ⟨fun _ => RemoteOutcome.ok (Json.obj []),
        [("project", Json.str "p"), ("config", Json.str "c"),
          ("secrets", Json.arr [Json.str "n"])], _, rfl⟩
    · exact ⟨fun _ => RemoteOutcome.ok (Json.obj []),
        [("project", Json.str "p"), ("sourceConfig", Json.str "d"),
          ("targetConfig", Json.str "s")], _, rfl⟩
    · exact ⟨fun _ => RemoteOutcome.ok (Json.obj [("token",
          Json.obj [("key", Json.str "k"), ("access", Json.str "read")])]),
        [("project", Json.str "p"), ("config", Json.str "c"), ("name", Json.str "t")],
        _, rfl⟩
    · exact ⟨fun _ => RemoteOutcome.ok (Json.obj []), [], _, rfl⟩

/-- C6 counterexample: the schema rejects the hyphenated string
`read-write` as an enum violation and accepts `read/write` — so the
accepted access enumeration is not `{read, read-write}` as claimed. -/
theorem access_enum_counterexample :
    CreateServiceTokenSchema_parse [("project", Json.str "p"), ("config", Json.str "c"),
        ("name", Json.str "t"), ("access", Json.str "read-write")]
      = .error "access: Invalid enum value"
    ∧ CreateServiceTokenSchema_parse [("project", Json.str "p"), ("config", Json.str "c"),
        ("name", Json.str "t"), ("access", Json.str "read/write")]
      = .ok ("p", "c", "t", "read/write") := ⟨rfl, rfl⟩

/-- C6 (amended): the accepted access-level values form exactly the
enumeration `{read, read/write}` (slash, not hyphen): schema validation
accepts an `access` string argument if and only if it is `"read"` or
`"read/write"`; any other string — `"read-write"` included — is an enum
violation. -/
theorem access_enum_exactly_read_and_read_slash_write :
    (∀ s : String, accessEnumOk s = true ↔ (s = "read" ∨ s = "read/write"))
    ∧ (∀ s p c n : String,
        (∃ v, CreateServiceTokenSchema_parse [("project", Json.str p), ("config", Json.str c),
          ("name", Json.str n), ("access", Json.str s)] = .ok v)
        ↔ (s = "read" ∨ s = "read/write")) := by
  constructor
  · intro s
    simp [accessEnumOk]
  · intro s p c n
    simp only [CreateServiceTokenSchema_parse, parseRequiredString, parseAccessWithDefault,
      List.lookup, accessEnumOk, Except.bind]
    by_cases hs : s = "read"
    · simp [hs]
    · by_cases hs2 : s = "read/write"
      · simp [hs, hs2]
      · simp [hs, hs2]

/-- C7: `createServiceToken` invoked without an explicit access argument —
directly on the client (where the parameter defaults to `"read"`) or
through the `doppler_create_service_token` tool with no `access` field —
sends `access = "read"` (read-only) to the remote API. -/
theorem createServiceToken_defaults_to_read :
    (∀ (net : Network) (project config name : String),
        (DopplerClient.createServiceToken net project config name).calls
          = [DopplerClient.createServiceTokenCall project config name "read"])
    ∧ (∀ (net : Network) (args : Args) (project config name : String),
        args.lookup "project" = some (Json.str project) →
        args.lookup "config" = some (Json.str config) →
        args.lookup "name" = some (Json.str name) →
        args.lookup "access" = none →
        (handleToolCall net "doppler_create_service_token" args).2
          = [DopplerClient.createServiceTokenCall project config name "read"]) := by
  constructor
  · intro net project config name
    unfold DopplerClient.createServiceToken
    cases o : net (DopplerClient.createServiceTokenCall project config name "read") <;>
      simp [o]
  · intro net args project config name hp hc hn ha
    unfold handleToolCall dispatchInner CreateServiceTokenSchema_parse
    simp only [parseRequiredString, parseAccessWithDefault, hp, hc, hn, ha, Except.bind]
    unfold DopplerClient.createServiceToken
    cases o : net (DopplerClient.createServiceTokenCall project config name "read") with
    | ok data =>
        simp only [o]
        cases ht : data.getField "token" <;> simp
    | httpError st b => simp [o]
    | transportError m => simp [o]

/-- Witness for C7: the tool called with only project, config and name
issues exactly one POST whose body carries `access = "read"`. -/
theorem createServiceToken_defaults_to_read_witness :
    (handleToolCall (fun _ => RemoteOutcome.ok Json.null) "doppler_create_service_token"
        [("project", Json.str "p1"), ("config", Json.str "dev"),
          ("name", Json.str "ci-token")]).2
      = [DopplerClient.createServiceTokenCall "p1" "dev" "ci-token" "read"] :=
  createServiceToken_defaults_to_read.2 (fun _ => RemoteOutcome.ok Json.null)
    [("project", Json.str "p1"), ("config", Json.str "dev"), ("name", Json.str "ci-token")]
    "p1" "dev" "ci-token" rfl rfl rfl rfl
